import Mathlib

/-!
Verification of the DEEPaaS model registry and wrapper layer
(`deepaas/model.py`): plugin discovery into a name-to-wrapper registry,
the abstract model interface, the placeholder test model, and the
`ModelWrapper` delegation with error translation.

The embedding is shallow: Python exceptions become an explicit exception
type, fallible calls return `Except`, a duck-typed model object becomes a
record of optional methods, and the module-level registry globals become
an explicit state record threaded through `register_models`.
-/

set_option autoImplicit false

/-- Python values relevant to this module: strings, string-valued
dictionaries (metadata and argument schemas; `{}` is `dictS []`), and
opaque other objects. -/
inductive PyVal where
  | str : String → PyVal
  | dictS : List (String × String) → PyVal
  | obj : Nat → PyVal
deriving DecidableEq

/-- The exceptions that appear in `deepaas/model.py`: the builtin
`NotImplementedError`, `AttributeError` from a failed attribute lookup,
`werkzeug.exceptions.NotImplemented` (the standardized HTTP 501 error,
carrying its message), and any other exception. -/
inductive PyExc where
  | notImplementedError : PyExc
  | attributeError : PyExc
  | werkzeugNotImplemented : String → PyExc
  | other : String → PyExc
deriving DecidableEq

/-- A duck-typed model object: each of the seven capability methods may be
present (`some`, a fallible function) or absent (`none`, so that attribute
lookup raises `AttributeError`).  `get_metadata` is called with no
arguments; the others receive their argument tuple as one `PyVal`. -/
structure PyModel where
  predict_file : Option (PyVal → Except PyExc PyVal)
  predict_data : Option (PyVal → Except PyExc PyVal)
  predict_url : Option (PyVal → Except PyExc PyVal)
  get_metadata : Option (Unit → Except PyExc PyVal)
  train : Option (PyVal → Except PyExc PyVal)
  get_train_args : Option (PyVal → Except PyExc PyVal)
  get_test_args : Option (PyVal → Except PyExc PyVal)

/-- `getattr(obj, name)`: returns the attribute when present, raises
`AttributeError` when absent. -/
def pyGetattr {β : Type} (attr : Option β) : Except PyExc β :=
  match attr with
  | some v => Except.ok v
  | none => Except.error PyExc.attributeError

/-- The names of the abstract methods declared with `@abc.abstractmethod`
on `BaseModel`, in source order (`deepaas/model.py` lines 61-170). -/
def BaseModel.abstractMethods : List String :=
  ["predict_file", "predict_data", "predict_url", "get_metadata", "train",
   "get_train_args", "get_test_args"]

/-- The fixed metadata dictionary returned by `TestModel.get_metadata`. -/
def TestModel.metadata : List (String × String) :=
  [("id", "0"),
   ("name", "deepaas-test"),
   ("description", "This is not a model at all, just a placeholder for testing the API functionality. If you are seeing this, it is because DEEPaaS could not load a valid model."),
   ("author", "Alvaro Lopez Garcia"),
   ("version", "0.0.1")]

/-- The placeholder `TestModel`: the predict and train methods delegate to
the abstract base, which raises `NotImplementedError`; the argument
getters return `{}`; `get_metadata` returns the fixed dictionary. -/
def TestModel : PyModel where
  predict_file := some (fun _ => Except.error PyExc.notImplementedError)
  predict_data := some (fun _ => Except.error PyExc.notImplementedError)
  predict_url := some (fun _ => Except.error PyExc.notImplementedError)
  get_metadata := some (fun _ => Except.ok (PyVal.dictS TestModel.metadata))
  train := some (fun _ => Except.error PyExc.notImplementedError)
  get_train_args := some (fun _ => Except.ok (PyVal.dictS []))
  get_test_args := some (fun _ => Except.ok (PyVal.dictS []))

/-- The `catch_error` decorator: re-raises a builtin
`NotImplementedError` escaping the wrapped call as the standardized
`werkzeug.exceptions.NotImplemented`; everything else passes through. -/
def catch_error (r : Except PyExc PyVal) : Except PyExc PyVal :=
  match r with
  | Except.error PyExc.notImplementedError =>
      Except.error (PyExc.werkzeugNotImplemented
        "Model does not implement this functionality")
  | r => r

/-- The wrapper around a loaded model: a name and the underlying model. -/
structure ModelWrapper where
  name : String
  model : PyModel

/-- `ModelWrapper._get_method`: attribute lookup on the underlying model,
with `AttributeError` translated to the standardized
`werkzeug.exceptions.NotImplemented` naming the wrapper. -/
def ModelWrapper.getMethod (w : ModelWrapper)
    (attr : Option (PyVal → Except PyExc PyVal)) :
    Except PyExc (PyVal → Except PyExc PyVal) :=
  match pyGetattr attr with
  | Except.ok meth => Except.ok meth
  | Except.error PyExc.attributeError =>
      Except.error (PyExc.werkzeugNotImplemented
        ("Not implemented by underlying model (loaded \x27" ++ w.name ++ "\x27)"))
  | Except.error e => Except.error e

/-- `self._get_method(name)(*args)`: look the method up, then call it. -/
def ModelWrapper.callMethod (w : ModelWrapper)
    (attr : Option (PyVal → Except PyExc PyVal)) (args : PyVal) :
    Except PyExc PyVal :=
  match w.getMethod attr with
  | Except.ok meth => meth args
  | Except.error e => Except.error e

/-- The fallback metadata dictionary built by `ModelWrapper.get_metadata`
when the underlying model provides none. -/
def ModelWrapper.metadataFallback (w : ModelWrapper) : PyVal :=
  PyVal.dictS
    [("id", "0"),
     ("name", w.name),
     ("description", "Could not load description from underlying model (loaded \x27" ++ w.name ++ "\x27)")]

/-- `ModelWrapper.predict_file`: delegation under `catch_error`.  Each
operation also returns the wrapper state after the call, which the source
never mutates. -/
def ModelWrapper.predict_file (w : ModelWrapper) (args : PyVal) :
    Except PyExc PyVal × ModelWrapper :=
  (catch_error (w.callMethod w.model.predict_file args), w)

/-- `ModelWrapper.predict_data`: delegation under `catch_error`. -/
def ModelWrapper.predict_data (w : ModelWrapper) (args : PyVal) :
    Except PyExc PyVal × ModelWrapper :=
  (catch_error (w.callMethod w.model.predict_data args), w)

/-- `ModelWrapper.predict_url`: delegation under `catch_error`. -/
def ModelWrapper.predict_url (w : ModelWrapper) (args : PyVal) :
    Except PyExc PyVal × ModelWrapper :=
  (catch_error (w.callMethod w.model.predict_url args), w)

/-- `ModelWrapper.train`: delegation under `catch_error`. -/
def ModelWrapper.train (w : ModelWrapper) (args : PyVal) :
    Except PyExc PyVal × ModelWrapper :=
  (catch_error (w.callMethod w.model.train args), w)

/-- `ModelWrapper.get_metadata`: calls `self.model.get_metadata()` and, on
`NotImplementedError` or `AttributeError`, returns the fallback dictionary
instead. -/
def ModelWrapper.get_metadata (w : ModelWrapper) :
    Except PyExc PyVal × ModelWrapper :=
  (match (match pyGetattr w.model.get_metadata with
          | Except.ok f => f ()
          | Except.error e => Except.error e) with
   | Except.error PyExc.notImplementedError => Except.ok w.metadataFallback
   | Except.error PyExc.attributeError => Except.ok w.metadataFallback
   | r => r, w)

/-- `ModelWrapper.get_train_args`: delegation whose inner `try` turns the
standardized `werkzeug.exceptions.NotImplemented` (raised by
`_get_method` on a missing attribute) into `{}`, all under
`catch_error`. -/
def ModelWrapper.get_train_args (w : ModelWrapper) (args : PyVal) :
    Except PyExc PyVal × ModelWrapper :=
  (catch_error
    (match w.callMethod w.model.get_train_args args with
     | Except.error (PyExc.werkzeugNotImplemented _) => Except.ok (PyVal.dictS [])
     | r => r), w)

/-- `ModelWrapper.get_test_args`: same shape as `get_train_args`. -/
def ModelWrapper.get_test_args (w : ModelWrapper) (args : PyVal) :
    Except PyExc PyVal × ModelWrapper :=
  (catch_error
    (match w.callMethod w.model.get_test_args args with
     | Except.error (PyExc.werkzeugNotImplemented _) => Except.ok (PyVal.dictS [])
     | r => r), w)

/-- The module-level registry state: the `MODELS` mapping (an association
list, names unique as Python dict keys are) and the `MODELS_LOADED`
flag. -/
structure RegistryState where
  MODELS : List (String × ModelWrapper)
  MODELS_LOADED : Bool

/-- The outcome of `loading.get_available_models()`: either a mapping of
plugin names to model objects, or an exception (carried as a message). -/
def Discovery : Type := Except String (List (String × PyModel))

/-- Whether discovery registered no plugin: it raised, or returned an
empty mapping. -/
def discoveredNone (d : Discovery) : Bool :=
  match d with
  | Except.ok l => l.isEmpty
  | Except.error _ => true

/-- `register_models`: a no-op when `MODELS_LOADED` is set; otherwise
resets `MODELS`, wraps each discovered model (an exception from discovery
is caught and logged, leaving `MODELS` empty), installs the placeholder
`TestModel` wrapper when `MODELS` ended up empty, and sets
`MODELS_LOADED`.  The returned `Bool` records whether discovery was
invoked. -/
def register_models (d : Discovery) (s : RegistryState) :
    RegistryState × Bool :=
  if s.MODELS_LOADED then (s, false)
  else
    let discovered : List (String × ModelWrapper) :=
      match d with
      | Except.ok l => l.map (fun p => (p.1, ModelWrapper.mk p.1 p.2))
      | Except.error _ => []
    let models :=
      if discovered.isEmpty then
        [("deepaas-test", ModelWrapper.mk "deepaas-test" TestModel)]
      else discovered
    ({ MODELS := models, MODELS_LOADED := true }, true)

/-- A model object with none of the seven methods. -/
def emptyModel : PyModel where
  predict_file := none
  predict_data := none
  predict_url := none
  get_metadata := none
  train := none
  get_train_args := none
  get_test_args := none

/-- A model object whose every method is present and raises the builtin
`NotImplementedError`. -/
def raisingModel : PyModel where
  predict_file := some (fun _ => Except.error PyExc.notImplementedError)
  predict_data := some (fun _ => Except.error PyExc.notImplementedError)
  predict_url := some (fun _ => Except.error PyExc.notImplementedError)
  get_metadata := some (fun _ => Except.error PyExc.notImplementedError)
  train := some (fun _ => Except.error PyExc.notImplementedError)
  get_train_args := some (fun _ => Except.error PyExc.notImplementedError)
  get_test_args := some (fun _ => Except.error PyExc.notImplementedError)

/-- Whether a call outcome is the standardized not-implemented error. -/
def raisesNotImplemented (r : Except PyExc PyVal) : Bool :=
  match r with
  | Except.error (PyExc.werkzeugNotImplemented _) => true
  | _ => false

/-- Whether a call outcome is a returned value or the standardized
not-implemented error (in particular, not a raw `AttributeError`). -/
def isOkOrNotImplemented (r : Except PyExc PyVal) : Bool :=
  match r with
  | Except.ok _ => true
  | Except.error (PyExc.werkzeugNotImplemented _) => true
  | _ => false

/-- Claim C3: registry population is idempotent.  For any discovery
outcomes, running `register_models` a second time leaves the state exactly
as the first call left it and does not invoke discovery again; the no-op
is decided by the `MODELS_LOADED` flag, which the first call leaves
set. -/
theorem register_models_idempotent (d1 d2 : Discovery) (s : RegistryState) :
    (register_models d2 (register_models d1 s).1).1 = (register_models d1 s).1 ∧
    (register_models d2 (register_models d1 s).1).2 = false ∧
    (register_models d1 s).1.MODELS_LOADED = true := by
  unfold register_models
  cases h : s.MODELS_LOADED <;> simp [h]

/-- Claim C4: when discovery yields an empty mapping, the registry after
`register_models` holds exactly the placeholder entry keyed
"deepaas-test", and the placeholder model reports the fixed metadata
dictionary. -/
theorem register_models_empty_discovery (s : RegistryState)
    (h : s.MODELS_LOADED = false) :
    (register_models (Except.ok []) s).1.MODELS =
      [("deepaas-test", ModelWrapper.mk "deepaas-test" TestModel)] ∧
    ((ModelWrapper.mk "deepaas-test" TestModel).get_metadata).1 =
      Except.ok (PyVal.dictS
        [("id", "0"),
         ("name", "deepaas-test"),
         ("description", "This is not a model at all, just a placeholder for testing the API functionality. If you are seeing this, it is because DEEPaaS could not load a valid model."),
         ("author", "Alvaro Lopez Garcia"),
         ("version", "0.0.1")]) := by
  constructor
  · simp [register_models, h]
  · rfl

/-- Witness for C4 at the initial registry state. -/
theorem register_models_empty_discovery_witness :
    (register_models (Except.ok []) (RegistryState.mk [] false)).1.MODELS =
      [("deepaas-test", ModelWrapper.mk "deepaas-test" TestModel)] :=
  (register_models_empty_discovery (RegistryState.mk [] false) rfl).1

/-- Claim C5: for every outcome of discovery, including an exception
(caught inside `register_models`, never propagated), the registry is
non-empty afterwards; when discovery registered no plugin, the registry
is exactly the placeholder entry. -/
theorem register_models_nonempty (d : Discovery) (s : RegistryState)
    (h : s.MODELS_LOADED = false) :
    (register_models d s).1.MODELS ≠ [] ∧
    (discoveredNone d = true →
      (register_models d s).1.MODELS =
        [("deepaas-test", ModelWrapper.mk "deepaas-test" TestModel)]) := by
  unfold register_models
  cases d with
  | error e => simp [h, discoveredNone]
  | ok l =>
    cases l with
    | nil => simp [h, discoveredNone]
    | cons a t => simp [h, discoveredNone]

/-- Witness for C5: discovery raising an exception still leaves the
placeholder registered. -/
theorem register_models_nonempty_witness :
    (register_models (Except.error "boom") (RegistryState.mk [] false)).1.MODELS =
      [("deepaas-test", ModelWrapper.mk "deepaas-test" TestModel)] :=
  (register_models_nonempty (Except.error "boom") (RegistryState.mk [] false) rfl).2 rfl

/-- Claim C6, counterexample: `BaseModel` does not declare six abstract
methods. -/
theorem abstract_methods_not_six : ¬ (BaseModel.abstractMethods.length = 6) := by
  decide

/-- Claim C6, amended: the abstract model interface `BaseModel` declares
exactly seven abstract methods. -/
theorem abstract_methods_count_seven : BaseModel.abstractMethods.length = 7 := by
  decide

/-- Claim C7: no wrapper operation mutates the wrapper: after any of the
seven operations the wrapper state, hence its name and its reference to
the underlying model, is unchanged. -/
theorem wrapper_operations_preserve_state (w : ModelWrapper) (args : PyVal) :
    (w.predict_file args).2 = w ∧ (w.predict_data args).2 = w ∧
    (w.predict_url args).2 = w ∧ (w.train args).2 = w ∧
    (w.get_metadata).2 = w ∧ (w.get_train_args args).2 = w ∧
    (w.get_test_args args).2 = w :=
  ⟨rfl, rfl, rfl, rfl, rfl, rfl, rfl⟩

/-- Claim C1, counterexample: not every operation surfaces the
standardized error on a missing method.  On a model with no methods,
`get_train_args` returns `{}` and `get_metadata` returns the fallback
dictionary; neither raises the standardized not-implemented error. -/
theorem missing_method_not_always_error :
    ((ModelWrapper.mk "m" emptyModel).get_train_args (PyVal.dictS [])).1 =
      Except.ok (PyVal.dictS []) ∧
    raisesNotImplemented
      ((ModelWrapper.mk "m" emptyModel).get_train_args (PyVal.dictS [])).1 = false ∧
    raisesNotImplemented ((ModelWrapper.mk "m" emptyModel).get_metadata).1 = false :=
  ⟨rfl, rfl, rfl⟩

/-- Claim C1, amended: on a model missing the corresponding method,
`predict_file`, `predict_data`, `predict_url` and `train` raise the
standardized not-implemented error; `get_metadata` instead returns the
fallback metadata dictionary, and `get_train_args` and `get_test_args`
return an empty dictionary. -/
theorem missing_method_behavior (n : String) (m : PyModel) (args : PyVal) :
    (m.predict_file = none → ((ModelWrapper.mk n m).predict_file args).1 =
      Except.error (PyExc.werkzeugNotImplemented
        ("Not implemented by underlying model (loaded \x27" ++ n ++ "\x27)"))) ∧
    (m.predict_data = none → ((ModelWrapper.mk n m).predict_data args).1 =
      Except.error (PyExc.werkzeugNotImplemented
        ("Not implemented by underlying model (loaded \x27" ++ n ++ "\x27)"))) ∧
    (m.predict_url = none → ((ModelWrapper.mk n m).predict_url args).1 =
      Except.error (PyExc.werkzeugNotImplemented
        ("Not implemented by underlying model (loaded \x27" ++ n ++ "\x27)"))) ∧
    (m.train = none → ((ModelWrapper.mk n m).train args).1 =
      Except.error (PyExc.werkzeugNotImplemented
        ("Not implemented by underlying model (loaded \x27" ++ n ++ "\x27)"))) ∧
    (m.get_metadata = none → ((ModelWrapper.mk n m).get_metadata).1 =
      Except.ok ((ModelWrapper.mk n m).metadataFallback)) ∧
    (m.get_train_args = none →
      ((ModelWrapper.mk n m).get_train_args args).1 = Except.ok (PyVal.dictS [])) ∧
    (m.get_test_args = none →
      ((ModelWrapper.mk n m).get_test_args args).1 = Except.ok (PyVal.dictS [])) := by
  refine ⟨?_, ?_, ?_, ?_, ?_, ?_, ?_⟩ <;> intro h <;>
    simp [ModelWrapper.predict_file, ModelWrapper.predict_data,
      ModelWrapper.predict_url, ModelWrapper.train, ModelWrapper.get_metadata,
      ModelWrapper.get_train_args, ModelWrapper.get_test_args,
      ModelWrapper.callMethod, ModelWrapper.getMethod, pyGetattr, catch_error, h]

/-- Witness for C1 (amended) on the method-less model. -/
theorem missing_method_behavior_witness :
    ((ModelWrapper.mk "m" emptyModel).predict_file (PyVal.dictS [])).1 =
      Except.error (PyExc.werkzeugNotImplemented
        ("Not implemented by underlying model (loaded \x27" ++ "m" ++ "\x27)")) ∧
    ((ModelWrapper.mk "m" emptyModel).get_train_args (PyVal.dictS [])).1 =
      Except.ok (PyVal.dictS []) :=
  ⟨(missing_method_behavior "m" emptyModel (PyVal.dictS [])).1 rfl,
   (missing_method_behavior "m" emptyModel (PyVal.dictS [])).2.2.2.2.2.1 rfl⟩

/-- Claim C2, counterexample: the two failure modes are distinguishable.
For `get_train_args`, a missing method yields `{}` while a method raising
`NotImplementedError` yields the standardized error, so the caller can
tell them apart. -/
theorem failure_modes_distinguishable :
    ((ModelWrapper.mk "m" emptyModel).get_train_args (PyVal.dictS [])).1 =
      Except.ok (PyVal.dictS []) ∧
    ((ModelWrapper.mk "m" raisingModel).get_train_args (PyVal.dictS [])).1 =
      Except.error (PyExc.werkzeugNotImplemented
        "Model does not implement this functionality") ∧
    raisesNotImplemented
        ((ModelWrapper.mk "m" emptyModel).get_train_args (PyVal.dictS [])).1 ≠
      raisesNotImplemented
        ((ModelWrapper.mk "m" raisingModel).get_train_args (PyVal.dictS [])).1 :=
  ⟨rfl, rfl, by decide⟩

/-- Claim C2, amended: for `predict_file`, `predict_data`, `predict_url`
and `train` (but not the argument getters, and with differing messages),
both failure modes raise an error of the standardized not-implemented
class. -/
theorem notimplemented_error_uniform_class (n : String) (m : PyModel) (args : PyVal) :
    (m.predict_file = none →
      raisesNotImplemented ((ModelWrapper.mk n m).predict_file args).1 = true) ∧
    (∀ f, m.predict_file = some f → f args = Except.error PyExc.notImplementedError →
      raisesNotImplemented ((ModelWrapper.mk n m).predict_file args).1 = true) ∧
    (m.predict_data = none →
      raisesNotImplemented ((ModelWrapper.mk n m).predict_data args).1 = true) ∧
    (∀ f, m.predict_data = some f → f args = Except.error PyExc.notImplementedError →
      raisesNotImplemented ((ModelWrapper.mk n m).predict_data args).1 = true) ∧
    (m.predict_url = none →
      raisesNotImplemented ((ModelWrapper.mk n m).predict_url args).1 = true) ∧
    (∀ f, m.predict_url = some f → f args = Except.error PyExc.notImplementedError →
      raisesNotImplemented ((ModelWrapper.mk n m).predict_url args).1 = true) ∧
    (m.train = none →
      raisesNotImplemented ((ModelWrapper.mk n m).train args).1 = true) ∧
    (∀ f, m.train = some f → f args = Except.error PyExc.notImplementedError →
      raisesNotImplemented ((ModelWrapper.mk n m).train args).1 = true) := by
  refine ⟨fun h => ?_, fun f hf hr => ?_, fun h => ?_, fun f hf hr => ?_,
    fun h => ?_, fun f hf hr => ?_, fun h => ?_, fun f hf hr => ?_⟩ <;>
    simp_all [ModelWrapper.predict_file, ModelWrapper.predict_data,
      ModelWrapper.predict_url, ModelWrapper.train,
      ModelWrapper.callMethod, ModelWrapper.getMethod, pyGetattr, catch_error,
      raisesNotImplemented]

/-- Witness for C2 (amended): `predict_file` raises the standardized
error class both when the method is missing and when it raises
`NotImplementedError`. -/
theorem notimplemented_error_uniform_class_witness :
    raisesNotImplemented
      ((ModelWrapper.mk "m" emptyModel).predict_file (PyVal.dictS [])).1 = true ∧
    raisesNotImplemented
      ((ModelWrapper.mk "m" raisingModel).predict_file (PyVal.dictS [])).1 = true :=
  ⟨(notimplemented_error_uniform_class "m" emptyModel (PyVal.dictS [])).1 rfl,
   (notimplemented_error_uniform_class "m" raisingModel (PyVal.dictS [])).2.1
     _ rfl rfl⟩

/-- Claim C8: the raw `AttributeError` from a failed attribute lookup
never reaches the caller.  On a model missing the corresponding method,
every wrapper operation either returns a value or raises the standardized
not-implemented error. -/
theorem wrapper_no_attribute_error (n : String) (m : PyModel) (args : PyVal) :
    (m.predict_file = none →
      isOkOrNotImplemented ((ModelWrapper.mk n m).predict_file args).1 = true) ∧
    (m.predict_data = none →
      isOkOrNotImplemented ((ModelWrapper.mk n m).predict_data args).1 = true) ∧
    (m.predict_url = none →
      isOkOrNotImplemented ((ModelWrapper.mk n m).predict_url args).1 = true) ∧
    (m.train = none →
      isOkOrNotImplemented ((ModelWrapper.mk n m).train args).1 = true) ∧
    (m.get_metadata = none →
      isOkOrNotImplemented ((ModelWrapper.mk n m).get_metadata).1 = true) ∧
    (m.get_train_args = none →
      isOkOrNotImplemented ((ModelWrapper.mk n m).get_train_args args).1 = true) ∧
    (m.get_test_args = none →
      isOkOrNotImplemented ((ModelWrapper.mk n m).get_test_args args).1 = true) := by
  refine ⟨?_, ?_, ?_, ?_, ?_, ?_, ?_⟩ <;> intro h <;>
    simp [ModelWrapper.predict_file, ModelWrapper.predict_data,
      ModelWrapper.predict_url, ModelWrapper.train, ModelWrapper.get_metadata,
      ModelWrapper.get_train_args, ModelWrapper.get_test_args,
      ModelWrapper.callMethod, ModelWrapper.getMethod, pyGetattr, catch_error,
      isOkOrNotImplemented, h]

/-- Witness for C8 on the method-less model. -/
theorem wrapper_no_attribute_error_witness :
    isOkOrNotImplemented
      ((ModelWrapper.mk "m" emptyModel).predict_file (PyVal.dictS [])).1 = true ∧
    isOkOrNotImplemented ((ModelWrapper.mk "m" emptyModel).get_metadata).1 = true :=
  ⟨(wrapper_no_attribute_error "m" emptyModel (PyVal.dictS [])).1 rfl,
   (wrapper_no_attribute_error "m" emptyModel (PyVal.dictS [])).2.2.2.2.1 rfl⟩

/-- Claim C9: the wrapper's `get_metadata` never raises when the
underlying model lacks `get_metadata` or its `get_metadata` raises
`NotImplementedError` or `AttributeError`: it returns the fallback
dictionary with id "0", the wrapper's name, and a description saying the
description could not be loaded. -/
theorem get_metadata_fallback (n : String) (m : PyModel)
    (h : m.get_metadata = none ∨
      (∃ f, m.get_metadata = some f ∧
        (f () = Except.error PyExc.notImplementedError ∨
         f () = Except.error PyExc.attributeError))) :
    ((ModelWrapper.mk n m).get_metadata).1 =
      Except.ok (PyVal.dictS
        [("id", "0"),
         ("name", n),
         ("description",
          "Could not load description from underlying model (loaded \x27" ++ n ++ "\x27)")]) := by
  rcases h with h | ⟨f, hf, hr⟩
  · simp [ModelWrapper.get_metadata, ModelWrapper.metadataFallback, pyGetattr, h]
  · rcases hr with hr | hr <;>
      simp [ModelWrapper.get_metadata, ModelWrapper.metadataFallback, pyGetattr,
        hf, hr]

/-- Witness for C9 on the method-less model. -/
theorem get_metadata_fallback_witness :
    ((ModelWrapper.mk "m" emptyModel).get_metadata).1 =
      Except.ok (PyVal.dictS
        [("id", "0"),
         ("name", "m"),
         ("description",
          "Could not load description from underlying model (loaded \x27" ++ "m" ++ "\x27)")]) :=
  get_metadata_fallback "m" emptyModel (Or.inl rfl)

/-- Claim C10: `get_train_args` and `get_test_args` treat the two
not-implemented failure modes asymmetrically: a missing method yields
`{}`, while a present method raising `NotImplementedError` yields the
standardized not-implemented error. -/
theorem train_test_args_asymmetry (n : String) (m : PyModel) (args : PyVal) :
    (m.get_train_args = none →
      ((ModelWrapper.mk n m).get_train_args args).1 = Except.ok (PyVal.dictS [])) ∧
    (∀ f, m.get_train_args = some f →
      f args = Except.error PyExc.notImplementedError →
      ((ModelWrapper.mk n m).get_train_args args).1 =
        Except.error (PyExc.werkzeugNotImplemented
          "Model does not implement this functionality")) ∧
    (m.get_test_args = none →
      ((ModelWrapper.mk n m).get_test_args args).1 = Except.ok (PyVal.dictS [])) ∧
    (∀ f, m.get_test_args = some f →
      f args = Except.error PyExc.notImplementedError →
      ((ModelWrapper.mk n m).get_test_args args).1 =
        Except.error (PyExc.werkzeugNotImplemented
          "Model does not implement this functionality")) := by
  refine ⟨fun h => ?_, fun f hf hr => ?_, fun h => ?_, fun f hf hr => ?_⟩ <;>
    simp_all [ModelWrapper.get_train_args, ModelWrapper.get_test_args,
      ModelWrapper.callMethod, ModelWrapper.getMethod, pyGetattr, catch_error]

/-- Witness for C10: both branches of the asymmetry at concrete models. -/
theorem train_test_args_asymmetry_witness :
    ((ModelWrapper.mk "m" emptyModel).get_train_args (PyVal.dictS [])).1 =
      Except.ok (PyVal.dictS []) ∧
    ((ModelWrapper.mk "m" raisingModel).get_train_args (PyVal.dictS [])).1 =
      Except.error (PyExc.werkzeugNotImplemented
        "Model does not implement this functionality") :=
  ⟨(train_test_args_asymmetry "m" emptyModel (PyVal.dictS [])).1 rfl,
   (train_test_args_asymmetry "m" raisingModel (PyVal.dictS [])).2.1 _ rfl rfl⟩
